import Mathlib

/-!
Shallow embedding of the stack_guide ingestion and query pipeline.

Sources embedded (paths relative to the repository root):
- `app/core/ingestion/file_tracker.py`   (`FileTracker.should_reindex_file`, `update_file_tracker`)
- `app/core/ingestion/parallel.py`       (`ParallelProcessor.process_files_parallel`, `_process_files_sequential`)
- `app/core/ingestion/engine.py`         (`IngestionEngine._process_single_file`)
- `app/core/ingestion/chroma_storage.py` (`ChromaStorage.store_chunks` id generation)
- `app/core/ingestion/document_parser.py` (`DocumentParser._parse_markdown`, `_create_chunks`)
- `app/core/knowledge/confidence.py`     (`ConfidenceScorer`)
- `app/core/knowledge/retrieval.py`      (`DocumentRetriever.retrieve_documents`)
- `app/core/knowledge/engine.py`         (`KnowledgeEngine.query`)

Python floats are modelled as rationals (exact arithmetic), Python strings as
`String` or `List Char`, dictionaries keyed by fixed keys as structures, and
the two while-loops of the chunker as fuelled recursion (`none` = out of fuel;
totality for the default parameters is proved below).
-/

/-! ## File tracker (`app/core/ingestion/file_tracker.py`) -/

/-- Result of `file_path.stat()`: the code immediately stringifies `st_mtime`
(`current_modified = str(stat.st_mtime)`), so the modification time is modelled
as the already-stringified value. -/
structure FileStat where
  st_mtime : String
  st_size : Int
deriving DecidableEq

/-- One entry of `FileTracker.file_data`, as written by `update_file_tracker`. -/
structure TrackedInfo where
  content_hash : String
  last_modified : String
  file_size : Int
  indexed_in_chroma : Bool
deriving DecidableEq

/-- The in-memory tracker table `FileTracker.file_data` (dict keyed by `str(file_path)`.) -/
abbrev TrackerData : Type := List (String × TrackedInfo)

def trackerLookup (data : TrackerData) (key : String) : Option TrackedInfo :=
  (List.find? (fun p => p.1 == key) data).map (fun p => p.2)

/-- Python dict assignment `self.file_data[key] = info`: replace if present, append otherwise. -/
def trackerInsert (data : TrackerData) (key : String) (info : TrackedInfo) : TrackerData :=
  if List.any data (fun p => p.1 == key) then
    List.map (fun p => if p.1 == key then (key, info) else p) data
  else
    data ++ [(key, info)]

/-- `FileTracker.should_reindex_file` (file_tracker.py lines 60-110).  The file's
current stat is passed in; the code path where `file_path.stat()` itself raises
(which returns `True`) is outside this embedding, which models files whose stats
are available. -/
def should_reindex_file (data : TrackerData) (file_path : String) (st : FileStat)
    (force_reindex : Bool) : Bool :=
  if force_reindex then true
  else
    match trackerLookup data file_path with
    | none => true
    | some tracked_info =>
      if tracked_info.last_modified != st.st_mtime then true
      else if (st.st_size - tracked_info.file_size).natAbs > 100 then true
      else if !tracked_info.indexed_in_chroma then true
      else false

/-- Modelled from the spec wording of section 4.1 ("Decision algorithm, in order,
short-circuiting on first true"): 1. forceReindex; 2. no fingerprint; 3. stored
modification time differs; 4. size gap over 100 bytes; 5. not marked indexed;
6. otherwise false. -/
def reindex_decision_spec (data : TrackerData) (file_path : String) (st : FileStat)
    (force_reindex : Bool) : Bool :=
  force_reindex ||
    match trackerLookup data file_path with
    | none => true
    | some fp =>
      (fp.last_modified != st.st_mtime) ||
      decide ((st.st_size - fp.file_size).natAbs > 100) ||
      !fp.indexed_in_chroma

/-- `FileTracker.update_file_tracker` (file_tracker.py lines 122-139): records the
fingerprint for `path` computed from the file's current stat and content hash. -/
def update_file_tracker (data : TrackerData) (path : String) (st : FileStat)
    (content_hash : String) (indexed_in_chroma : Bool) : TrackerData :=
  trackerInsert data path
    { content_hash := content_hash
      last_modified := st.st_mtime
      file_size := st.st_size
      indexed_in_chroma := indexed_in_chroma }

/-! ## Knowledge data model (`app/core/knowledge/models.py`) -/

/-- The metadata keys the knowledge pipeline reads from a search result's
metadata dict; `none` models an absent key. -/
structure Metadata where
  source_file : Option String
  file_path : Option String
  chunk_index : Option Int
  total_chunks : Option Int
deriving DecidableEq

def Metadata.empty : Metadata :=
  { source_file := none, file_path := none, chunk_index := none, total_chunks := none }

/-- `SearchResult` dataclass. -/
structure SearchResult where
  content : String
  metadata : Metadata
  score : ℚ
  source : String
deriving DecidableEq

/-- `QueryResponse` dataclass. -/
structure QueryResponse where
  answer : String
  sources : List SearchResult
  confidence : ℚ
deriving DecidableEq

/-- `SearchQuery` dataclass (the `filters` field is unused by the embedded code). -/
structure SearchQuery where
  text : String
  max_results : Nat
  min_score : ℚ
deriving DecidableEq

/-- `ConfidenceMetrics` dataclass. -/
structure ConfidenceMetrics where
  top_scores : List ℚ
  score_variance : ℚ
  result_count : Nat
  content_quality : ℚ
  metadata_completeness : ℚ
deriving DecidableEq

/-! ## Confidence scorer (`app/core/knowledge/confidence.py`) -/

/-- Contiguous-sublist test: does `needle` occur somewhere in `haystack`? -/
def listContainsSub (needle : List Char) : List Char → Bool
  | [] => needle.isEmpty
  | c :: rest => List.isPrefixOf needle (c :: rest) || listContainsSub needle rest

/-- Python substring test `needle in haystack`. -/
def pyInStr (needle haystack : String) : Bool :=
  listContainsSub needle.data haystack.data

/-- Python `str.lower()` (ASCII-sufficient model). -/
def lowerStr (s : String) : String :=
  ⟨List.map Char.toLower s.data⟩

/-- Python truthiness of `metadata.get(key)` for a string-valued key: present and non-empty. -/
def truthyStr : Option String → Bool
  | none => false
  | some s => s != ""

def technical_terms : List String :=
  ["install", "setup", "config", "run", "command", "api", "database"]

/-- Per-result body of `ConfidenceScorer._assess_content_quality`. -/
def content_quality_one (r : SearchResult) : ℚ :=
  let content := r.content
  let s1 : ℚ :=
    if content.length > 100 then 0.3
    else if content.length > 50 then 0.2
    else if content.length > 20 then 0.1
    else 0
  let s2 : ℚ := s1 + (if pyInStr "```" content || pyInStr "`" content then 0.2 else 0)
  let s3 : ℚ := s2 +
    (if pyInStr "#" content || pyInStr "-" content || pyInStr "*" content ||
        pyInStr "1." content || pyInStr "2." content then 0.2 else 0)
  let s4 : ℚ := s3 +
    (if List.any technical_terms (fun t => pyInStr t (lowerStr content)) then 0.3 else 0)
  min 1 s4

/-- `ConfidenceScorer._assess_content_quality` (confidence.py lines 130-172). -/
def assess_content_quality (search_results : List SearchResult) : ℚ :=
  match search_results with
  | [] => 0
  | _ => (List.map content_quality_one search_results).sum / search_results.length

/-- Per-result body of `ConfidenceScorer._assess_metadata_completeness`. -/
def metadata_completeness_one (r : SearchResult) : ℚ :=
  (if truthyStr r.metadata.source_file then 0.4 else 0) +
  (if truthyStr r.metadata.file_path then 0.3 else 0) +
  (if r.metadata.chunk_index.isSome then 0.2 else 0) +
  (if r.metadata.total_chunks.isSome then 0.1 else 0)

/-- `ConfidenceScorer._assess_metadata_completeness` (confidence.py lines 174-208). -/
def assess_metadata_completeness (search_results : List SearchResult) : ℚ :=
  match search_results with
  | [] => 0
  | _ => (List.map metadata_completeness_one search_results).sum / search_results.length

/-- `statistics.variance`: the sample variance, sum of squared deviations from the
mean divided by `n - 1` (only ever called on lists of length at least 2). -/
def sample_variance (xs : List ℚ) : ℚ :=
  let m : ℚ := xs.sum / xs.length
  (List.map (fun x => (x - m) ^ 2) xs).sum / ((xs.length : ℚ) - 1)

/-- `ConfidenceScorer._extract_confidence_metrics` (confidence.py lines 52-84). -/
def extract_confidence_metrics (search_results : List SearchResult) : ConfidenceMetrics :=
  let top_scores := List.map (fun r => r.score) (search_results.take 3)
  { top_scores := top_scores
    score_variance := if top_scores.length > 1 then sample_variance top_scores else 0
    result_count := search_results.length
    content_quality := assess_content_quality search_results
    metadata_completeness := assess_metadata_completeness search_results }

/-- `ConfidenceScorer._calculate_weighted_confidence` (confidence.py lines 86-128). -/
def calculate_weighted_confidence (metrics : ConfidenceMetrics) : ℚ :=
  let top_score_avg : ℚ :=
    if metrics.top_scores.isEmpty then 0
    else metrics.top_scores.sum / metrics.top_scores.length
  let variance_score : ℚ := max 0 (1 - metrics.score_variance)
  let count_score : ℚ := min 1 ((metrics.result_count : ℚ) / 5)
  let confidence : ℚ :=
    0.4 * top_score_avg + 0.2 * variance_score + 0.2 * count_score +
    0.15 * metrics.content_quality + 0.05 * metrics.metadata_completeness
  max 0 (min 1 confidence)

/-- `ConfidenceScorer.calculate_confidence` (confidence.py lines 24-50).  The
`except` branch returning `0.5` is unreachable in this pure embedding: every
helper is total and the `len > 1` guard protects `statistics.variance`. -/
def calculate_confidence (search_results : List SearchResult) (_question : String) : ℚ :=
  match search_results with
  | [] => 0
  | _ => calculate_weighted_confidence (extract_confidence_metrics search_results)

/-- Modelled from the spec wording: clamp to the unit interval. -/
def clamp01 (x : ℚ) : ℚ := max 0 (min 1 x)

/-- Modelled from the spec wording: mean of a list of scores. -/
def specMean (xs : List ℚ) : ℚ := xs.sum / xs.length

/-- Modelled from the spec wording "variance(top-3 scores)"; the variance of fewer
than two scores is taken to be 0, matching the code's guard. -/
def specVariance (xs : List ℚ) : ℚ :=
  if xs.length ≤ 1 then 0 else sample_variance xs

/-- Top-3 candidate scores of a result list. -/
def topScores (search_results : List SearchResult) : List ℚ :=
  List.map (fun r => r.score) (search_results.take 3)

/-! ## Retrieval (`app/core/knowledge/retrieval.py`) -/

/-- One `collection.query` response (documents / metadatas / distances for the
single query text); a `metadatas` entry of `none` models a null metadata dict. -/
structure StoreQueryResp where
  documents : List String
  metadatas : List (Option Metadata)
  distances : List ℚ
deriving DecidableEq

/-- Python `max` over a list (only meaningful for non-empty input). -/
def listMax : List ℚ → ℚ
  | [] => 0
  | d :: ds => List.foldl max d ds

/-- `DocumentRetriever.retrieve_documents` (retrieval.py lines 43-93).  `resp = none`
models the store call raising (connection failure, malformed response): the
exception is caught and `[]` returned.  When the batch's maximum distance is 0
the first score computation divides by zero, which in Python raises
`ZeroDivisionError`; it is caught by the same handler, so the result is `[]`. -/
def retrieve_documents (resp : Option StoreQueryResp) (query : SearchQuery) :
    List SearchResult :=
  match resp with
  | none => []
  | some r =>
    if r.documents.isEmpty then []
    else
      let triples := r.documents.zip (r.metadatas.zip r.distances)
      if !triples.isEmpty && listMax r.distances == 0 then []
      else
        List.filterMap (fun p =>
          let i := p.1
          let doc := p.2.1
          let meta := p.2.2.1
          let dist := p.2.2.2
          let score : ℚ := 1 - dist / listMax r.distances
          if score < query.min_score then none
          else some
            { content := doc
              metadata := meta.getD Metadata.empty
              score := score
              source :=
                match meta with
                | none => "result_" ++ toString i
                | some m => m.source_file.getD ("result_" ++ toString i) })
          triples.enum

/-! ## Knowledge engine (`app/core/knowledge/engine.py`) -/

def apostrophe : String := String.singleton (Char.ofNat 39)

/-- The fixed no-result answer text of `KnowledgeEngine.query`. -/
def no_relevant_msg : String :=
  "I couldn" ++ apostrophe ++
  "t find any relevant information to answer your question. Try rephrasing or adding more data sources."

/-- `KnowledgeEngine.query` (knowledge/engine.py lines 37-84).  The retriever's
store response (or its failure, `none`) is an input; the answer generator is the
injected collaborator `gen` (`AnswerGenerator.generate_answer`, itself total: it
catches its own exceptions and returns a string).  The function is total, so no
exception reaches the caller. -/
def knowledge_query (gen : String → List SearchResult → String)
    (resp : Option StoreQueryResp) (question : String) (max_results : Nat) :
    QueryResponse :=
  let search_results :=
    retrieve_documents resp { text := question, max_results := max_results, min_score := 0 }
  if search_results.isEmpty then
    { answer := no_relevant_msg, sources := [], confidence := 0 }
  else
    { answer := gen question search_results
      sources := search_results
      confidence := calculate_confidence search_results question }

/-! ## Document parser (`app/core/ingestion/document_parser.py`) -/

/-- Whitespace for Python `str.strip()` and the regex class `\s` (ASCII model). -/
def pyIsSpace (c : Char) : Bool :=
  c == ' ' || c == '\t' || c == '\n' || c == '\r' || c == Char.ofNat 11 || c == Char.ofNat 12

/-- Python `str.strip()` on a character list. -/
def pyStrip (s : List Char) : List Char :=
  ((s.dropWhile pyIsSpace).reverse.dropWhile pyIsSpace).reverse

/-- The fixed per-file metadata of a parsed chunk (path, name, extension tag). -/
structure FileInfo where
  file_path : String
  file_name : String
  file_type : String
deriving DecidableEq

/-- Metadata attached by `DocumentParser._create_chunks`; `chunk_type` is the
`doc_type` label (for markdown: the current section header text). -/
structure ChunkMeta where
  file_path : String
  file_name : String
  file_type : String
  chunk_type : List Char
  chunk_start : Nat
  chunk_end : Nat
  total_length : Nat
deriving DecidableEq

/-- A chunk dict `{"content": ..., "metadata": {...}}` produced by the parser. -/
structure PChunk where
  content : List Char
  metadata : ChunkMeta
deriving DecidableEq

/-- Indexing `text[i]` (Python only indexes in bounds in the embedded loops; the
default is irrelevant there). -/
def charAt (text : List Char) (i : Nat) : Char := text.getD i ' '

/-- Backward scan: try indices `i, i-1, ..., i-k`, returning the first (largest)
index satisfying `pred`. -/
def searchBack (pred : Nat → Bool) (i : Nat) : Nat → Option Nat
  | 0 => if pred i then some i else none
  | k + 1 => if pred i then some i else searchBack pred (i - 1) k

/-- Python `for i in range(hi, stop, -1): if pred(i): ...` — candidates
`hi, hi-1, ..., stop+1`; `none` when no candidate satisfies `pred`. -/
def findBreak (pred : Nat → Bool) (hi stop : Nat) : Option Nat :=
  if stop < hi then searchBack pred hi (hi - stop - 1) else none

/-- Sentence terminator test `text[i] in '.!?'`. -/
def isSentenceEnd (text : List Char) (i : Nat) : Bool :=
  charAt text i == '.' || charAt text i == '!' || charAt text i == '?'

/-- Paragraph break test `text[i] == '\n' and (i + 1 >= len(text) or text[i+1] == '\n')`. -/
def isParaBreak (text : List Char) (i : Nat) : Bool :=
  charAt text i == '\n' && (decide (i + 1 ≥ text.length) || charAt text (i + 1) == '\n')

/-- The chunk-end computation of one `_create_chunks` loop iteration
(document_parser.py lines 310-326): `end = start + chunk_size`, adjusted
backward to a sentence terminator within 100 characters, else (when `end` is
still exactly `start + chunk_size`) to a paragraph break within 50 characters. -/
def compute_chunk_end (chunk_size : Nat) (text : List Char) (start : Nat) : Nat :=
  let e0 := start + chunk_size
  if e0 < text.length then
    let e1 :=
      match findBreak (isSentenceEnd text) e0 (max (start + chunk_size - 100) start) with
      | some i => i + 1
      | none => e0
    if e1 = start + chunk_size then
      match findBreak (isParaBreak text) e1 (max (start + chunk_size - 50) start) with
      | some i => i + 1
      | none => e1
    else e1
  else e0

/-- The `while start < len(text)` loop of `DocumentParser._create_chunks`
(document_parser.py lines 306-351), as fuelled recursion: each iteration emits
the stripped slice `text[start:end]` (if non-empty) and continues at
`end - chunk_overlap`.  `none` means the fuel ran out. -/
def createChunksAux (chunk_size chunk_overlap : Nat) (text : List Char) (fi : FileInfo)
    (doc_type : List Char) : Nat → Nat → Option (List PChunk)
  | 0, _ => none
  | fuel + 1, start =>
    if start < text.length then
      let e := compute_chunk_end chunk_size text start
      let chunk_content := pyStrip ((text.drop start).take (e - start))
      match createChunksAux chunk_size chunk_overlap text fi doc_type fuel (e - chunk_overlap) with
      | none => none
      | some rest =>
        some (if chunk_content.isEmpty then rest
          else
            { content := chunk_content
              metadata :=
                { file_path := fi.file_path
                  file_name := fi.file_name
                  file_type := fi.file_type
                  chunk_type := doc_type
                  chunk_start := start
                  chunk_end := e
                  total_length := text.length } } :: rest)
    else some []

/-- `DocumentParser._create_chunks` (document_parser.py lines 291-351): empty or
whitespace-only text yields no chunks; otherwise run the loop with fuel
`len(text) + 1` (proved sufficient for the default parameters below). -/
def create_chunks (chunk_size chunk_overlap : Nat) (text : List Char) (fi : FileInfo)
    (doc_type : List Char) : Option (List PChunk) :=
  if (pyStrip text).isEmpty then some []
  else createChunksAux chunk_size chunk_overlap text fi doc_type (text.length + 1) 0

/-- Split a character list into lines at each newline character. -/
def splitLines : List Char → List (List Char)
  | [] => [[]]
  | c :: rest =>
    if c = '\n' then [] :: splitLines rest
    else
      match splitLines rest with
      | [] => [[c]]
      | l :: ls => (c :: l) :: ls

/-- A line matching the header pattern of `_parse_markdown`,
`^(#{1,6}\s+.+)$` with `re.MULTILINE`: one to six leading hash marks followed by
a whitespace character and at least one further character. -/
def isHeaderLine (l : List Char) : Bool :=
  let hashes := (l.takeWhile (fun c => c == '#')).length
  match l.drop hashes with
  | c :: _ :: _ => decide (1 ≤ hashes) && decide (hashes ≤ 6) && pyIsSpace c
  | _ => false

/-- The list returned by `re.split(r'^(#{1,6}\s+.+)$', content, flags=re.MULTILINE)`
on `content = intercalate "\n" lines`: the pieces between header lines (the
newline separators adjacent to a header belong to the neighbouring piece, and
the captured header lines themselves appear in the list). -/
def mdPieces : List (List Char) → List (List Char)
  | [] => [[]]
  | l :: rest =>
    if isHeaderLine l then
      match rest with
      | [] => [[], l, []]
      | _ :: _ =>
        match mdPieces rest with
        | p :: ps => [] :: l :: ('\n' :: p) :: ps
        | [] => [[], l, ['\n']]
    else
      match rest with
      | [] => [l]
      | _ :: _ =>
        match mdPieces rest with
        | p :: ps => (l ++ '\n' :: p) :: ps
        | [] => [l ++ ['\n']]

/-- The `for section in sections` loop of `_parse_markdown` (document_parser.py
lines 79-98): skip blank pieces, a piece starting with `#` becomes the current
header (stripped), any other piece is chunked under the current header. -/
def parse_markdown_loop (chunk_size chunk_overlap : Nat) (fi : FileInfo)
    (header : List Char) : List (List Char) → Option (List PChunk)
  | [] => some []
  | s :: rest =>
    if (pyStrip s).isEmpty then parse_markdown_loop chunk_size chunk_overlap fi header rest
    else if s.head? == some '#' then
      parse_markdown_loop chunk_size chunk_overlap fi (pyStrip s) rest
    else
      match create_chunks chunk_size chunk_overlap (pyStrip s) fi header with
      | none => none
      | some cs =>
        match parse_markdown_loop chunk_size chunk_overlap fi header rest with
        | none => none
        | some more => some (cs ++ more)

/-- `DocumentParser._parse_markdown` (document_parser.py lines 70-104) on the
file's decoded content; the initial section label is `"Document"`. -/
def parse_markdown (chunk_size chunk_overlap : Nat) (fi : FileInfo)
    (content : List Char) : Option (List PChunk) :=
  parse_markdown_loop chunk_size chunk_overlap fi "Document".data
    (mdPieces (splitLines content))

/-! ## Chunk storage ids (`app/core/ingestion/chroma_storage.py`) -/

/-- The id built by `ChromaStorage.store_chunks` for the chunk at batch index `i`:
`f"{chunk['metadata']['file_path']}_{i}_{hash(chunk['content']) % 1000000}"`.
`py_hash` is the process's builtin string hash (salted per interpreter run);
`Int.emod` matches Python `%` for the positive modulus. -/
def chunk_id (py_hash : List Char → Int) (file_path : String) (i : Nat)
    (content : List Char) : String :=
  file_path ++ "_" ++ toString i ++ "_" ++ toString (py_hash content % 1000000)

/-- The ids assigned by one `store_chunks` call, in batch order. -/
def store_chunk_ids (py_hash : List Char → Int) (chunks : List PChunk) : List String :=
  List.map (fun p => chunk_id py_hash p.2.metadata.file_path p.1 p.2.content) chunks.enum

/-! ## Ingestion pipeline (`parallel.py` and `engine.py`) -/

/-- Outcome of one `process_func(file_path, source_path)` call as observed by
`process_files_parallel` / `_process_files_sequential`: a (truthy) result dict
with its `chunks_created` value, a falsy result (`None`), or a raised exception
whose message ends up in the error list. -/
inductive ProcOutcome where
  | ok (chunks_created : Nat)
  | noResult
  | raised (msg : String)
deriving DecidableEq

/-- The aggregate statistics dict of `parallel.py`. -/
structure IngestResult where
  files_processed : Nat
  chunks_created : Nat
  errors : List String
deriving DecidableEq

/-- The shared result-collection loop of `process_files_parallel` (lines 62-91)
and `_process_files_sequential` (lines 108-127): identical aggregation, applied
to per-file outcomes in the order they are observed. -/
def collect_results (outs : List ProcOutcome) : IngestResult :=
  List.foldl
    (fun acc o =>
      match o with
      | ProcOutcome.ok c =>
        { acc with
          files_processed := acc.files_processed + 1
          chunks_created := acc.chunks_created + c }
      | ProcOutcome.noResult => acc
      | ProcOutcome.raised m => { acc with errors := acc.errors ++ [m] })
    { files_processed := 0, chunks_created := 0, errors := [] } outs

/-- `ParallelProcessor.process_files_parallel` (parallel.py lines 28-96).
`order` is the completion order in which `as_completed` yields the futures —
some permutation of `files`.  An empty batch returns zero counts immediately. -/
def process_files_parallel (files order : List α) (run : α → ProcOutcome) : IngestResult :=
  if files.isEmpty then { files_processed := 0, chunks_created := 0, errors := [] }
  else collect_results (order.map run)

/-- `ParallelProcessor._process_files_sequential` (parallel.py lines 98-127):
the same aggregation over the file list in its given order. -/
def process_files_sequential (files : List α) (run : α → ProcOutcome) : IngestResult :=
  collect_results (files.map run)

/-- The per-file world as seen by `IngestionEngine._process_single_file`:
`chunks` is what `document_parser.parse_file` returns (it catches every parser
exception and returns `[]`, so a file that fails to parse has `chunks = []`);
`store_ok` is whether `collection.add` succeeds inside `store_chunks`; `st` and
`content_hash` feed `update_file_tracker`. -/
structure FileModel where
  path : String
  chunks : List PChunk
  store_ok : Bool
  st : FileStat
  content_hash : String
deriving DecidableEq

/-- Return value of `ChromaStorage.store_chunks` (chroma_storage.py lines 62-109):
0 for an empty batch, the batch size on success, and 0 when `collection.add`
raises (the exception is caught and logged). -/
def store_chunks_count (store_ok : Bool) (chunks : List PChunk) : Nat :=
  if chunks.isEmpty then 0 else if store_ok then chunks.length else 0

/-- The (truthy) result dict of `_process_single_file`; the early return for an
empty chunk list is `{"chunks_created": 0}`. -/
structure SingleFileRes where
  chunks_created : Nat
deriving DecidableEq

/-- `IngestionEngine._process_single_file` (engine.py lines 606-634), returning
the result dict and the tracker table after the call.  With no chunks it
returns early, before storage and tracker update; otherwise it stores the
chunks (`store_chunks` swallows storage errors and returns 0) and then calls
`update_file_tracker` unconditionally, with its default `indexed_in_chroma=True`.
Every callee catches its own exceptions, so the outer `except` branch returning
`None` is unreachable in this embedding. -/
def process_single_file (data : TrackerData) (f : FileModel) :
    Option SingleFileRes × TrackerData :=
  if f.chunks.isEmpty then (some { chunks_created := 0 }, data)
  else
    let data' := update_file_tracker data f.path f.st f.content_hash true
    (some { chunks_created := f.chunks.length }, data')

/-- The outcome of `_process_single_file` as observed by the coordinator; the
returned dict does not depend on the tracker table, so it is computed against
the empty table. -/
def single_file_outcome (f : FileModel) : ProcOutcome :=
  match (process_single_file [] f).1 with
  | some r => ProcOutcome.ok r.chunks_created
  | none => ProcOutcome.noResult

/-- Tracker table after a batch is processed file by file. -/
def run_batch_tracker (data : TrackerData) (files : List FileModel) : TrackerData :=
  List.foldl (fun d f => (process_single_file d f).2) data files

/-! ## Helper projections and concrete sample inputs used by the theorems -/

/-- Projection used to state the closed form of `collect_results`: the
`chunks_created` value of a truthy result. -/
def okChunks : ProcOutcome → Option Nat
  | ProcOutcome.ok c => some c
  | _ => none

/-- Projection used to state the closed form of `collect_results`: the error
message of a raised exception. -/
def raisedMsg : ProcOutcome → Option String
  | ProcOutcome.raised m => some m
  | _ => none

/-- A concrete parsed chunk, used by witnesses and counterexamples. -/
def sampleChunk : PChunk :=
  { content := "hello".data
    metadata :=
      { file_path := "/a.md", file_name := "a.md", file_type := "md"
        chunk_type := "Text Document".data
        chunk_start := 0, chunk_end := 1000, total_length := 5 } }

/-- A file whose two chunks parse and store fine. -/
def fileOk : FileModel :=
  { path := "/a.md", chunks := [sampleChunk, sampleChunk], store_ok := true
    st := { st_mtime := "100.0", st_size := 5 }, content_hash := "h1" }

/-- A file that fails to parse: `parse_file` catches the parser's exception and
returns `[]`. -/
def fileParseFail : FileModel :=
  { path := "/b.md", chunks := [], store_ok := true
    st := { st_mtime := "100.0", st_size := 5 }, content_hash := "h2" }

/-- A file that parses to one chunk but whose vector-store write fails. -/
def fileStoreFail : FileModel :=
  { path := "/a.md", chunks := [sampleChunk], store_ok := false
    st := { st_mtime := "100.0", st_size := 5 }, content_hash := "h1" }

/-- A store response carrying a negative distance next to a positive one, as an
inner-product space can produce. -/
def respNegDist : StoreQueryResp :=
  { documents := ["a", "b"], metadatas := [none, none], distances := [-1, 1] }

/-- A benign one-document store response with distance 1/2. -/
def respHalf : StoreQueryResp :=
  { documents := ["a"], metadatas := [none], distances := [1/2] }

/-- The query the knowledge engine builds for question "q" with the default
`max_results`. -/
def queryQ : SearchQuery := { text := "q", max_results := 5, min_score := 0 }

/-- A concrete search result used by witnesses. -/
def resultSample : SearchResult :=
  { content := "install the package", metadata := Metadata.empty, score := 0.9, source := "s" }

/-- Concrete file info for parser examples. -/
def fiSample : FileInfo :=
  { file_path := "/doc/readme.md", file_name := "readme.md", file_type := "md" }

/-- Scenario A content: two hash headers, each followed by one content line. -/
def contentTwoHeaders : List Char :=
  "# Setup\nInstall the dependencies first.\n# Usage\nRun the main script.".data

/-- A concrete outcome function over numbered files: file 1 succeeds with three
chunks, every other file raises. -/
def runMixed : Nat → ProcOutcome :=
  fun n => if n = 1 then ProcOutcome.ok 3 else ProcOutcome.raised "boom"

/-- The single candidate produced by `retrieve_documents` on `respHalf`. -/
def resultHalf : SearchResult :=
  { content := "a", metadata := Metadata.empty, score := 0, source := "result_0" }

/-- The Scenario A body under the "Setup" header. -/
def sectionBodyA : List Char := "Install the dependencies first.".data

/-- The Scenario A body under the "Usage" header. -/
def sectionBodyB : List Char := "Run the main script.".data

/-- A body appearing before the first header. -/
def introBody : List Char := "Intro text here.".data

/-! ## Theorems -/

/-- C3: `should_reindex_file(path, forceReindex)` decides by exactly the spec's
short-circuit order: (1) forceReindex; (2) no stored fingerprint; (3) stored
modification time differs; (4) size gap over 100 bytes; (5) not marked indexed;
otherwise false. -/
theorem should_reindex_matches_spec (data : TrackerData) (file_path : String)
    (st : FileStat) (force_reindex : Bool) :
    should_reindex_file data file_path st force_reindex =
      reindex_decision_spec data file_path st force_reindex := by
  unfold should_reindex_file reindex_decision_spec
  cases force_reindex with
  | true => rfl
  | false =>
    cases trackerLookup data file_path with
    | none => rfl
    | some fp =>
      by_cases h1 : fp.last_modified = st.st_mtime <;>
        by_cases h2 : (st.st_size - fp.file_size).natAbs > 100 <;>
          cases h3 : fp.indexed_in_chroma <;>
            simp [h1, h2, h3, bne]

/-- C2 (supporting evaluation): the chunk id is built from the Python builtin
`hash(chunk['content'])`, which is salted per interpreter run; two runs whose
string hashes differ (here: the constant hashes 0 and 1, both admissible legal
values of a salted hash) assign different ids to the same unchanged chunk
stored under the same path. -/
theorem chunk_ids_depend_on_hash_seed :
    store_chunk_ids (fun _ => 0) [sampleChunk] = ["/a.md_0_0"] ∧
    store_chunk_ids (fun _ => 1) [sampleChunk] = ["/a.md_0_1"] ∧
    store_chunk_ids (fun _ => 0) [sampleChunk] ≠ store_chunk_ids (fun _ => 1) [sampleChunk] := by
  refine ⟨by decide, by decide, by decide⟩

/-- C6 (supporting evaluation): processing a file whose single chunk fails to be
written (`store_chunks` returns 0) still records a fingerprint for the path,
marked `indexed_in_chroma = true` — `_process_single_file` calls
`update_file_tracker` regardless of how many chunks were stored. -/
theorem store_failure_still_fingerprinted :
    trackerLookup (process_single_file [] fileStoreFail).2 "/a.md" =
      some { content_hash := "h1", last_modified := "100.0", file_size := 5,
             indexed_in_chroma := true } ∧
    store_chunks_count fileStoreFail.store_ok fileStoreFail.chunks = 0 := by
  refine ⟨by decide, by decide⟩

/-- C5: `query` never propagates an exception (it is a total function of the
store response), and on any query-time failure (`resp = none`: store
unreachable or malformed response, caught inside the retriever) as well as on
an empty retrieval result it returns the fixed no-relevant-information answer
with empty sources and confidence exactly 0. -/
theorem query_failure_fixed_response
    (gen : String → List SearchResult → String) (resp : Option StoreQueryResp)
    (question : String) (k : Nat)
    (h : resp = none ∨
      retrieve_documents resp { text := question, max_results := k, min_score := 0 } = []) :
    knowledge_query gen resp question k =
      { answer := no_relevant_msg, sources := [], confidence := 0 } := by
  rcases h with h | h
  · subst h; rfl
  · unfold knowledge_query
    rw [h]
    rfl

/-- Witness for C5 at a concrete failing store response. -/
theorem query_failure_fixed_response_witness :
    knowledge_query (fun _ _ => "") none "q" 5 =
      { answer := no_relevant_msg, sources := [], confidence := 0 } :=
  query_failure_fixed_response (fun _ _ => "") none "q" 5 (Or.inl rfl)

/-- Closed form of the shared result-collection loop: processed-file count and
chunk total come from the truthy results, the error list from the raised
exceptions, in observation order. -/
theorem collect_results_closed (outs : List ProcOutcome) :
    collect_results outs =
      { files_processed := (outs.filterMap okChunks).length
        chunks_created := (outs.filterMap okChunks).sum
        errors := outs.filterMap raisedMsg } := by
  have main : ∀ (outs : List ProcOutcome) (acc : IngestResult),
      List.foldl
        (fun acc o =>
          match o with
          | ProcOutcome.ok c =>
            { acc with
              files_processed := acc.files_processed + 1
              chunks_created := acc.chunks_created + c }
          | ProcOutcome.noResult => acc
          | ProcOutcome.raised m => { acc with errors := acc.errors ++ [m] })
        acc outs =
      { files_processed := acc.files_processed + (outs.filterMap okChunks).length
        chunks_created := acc.chunks_created + (outs.filterMap okChunks).sum
        errors := acc.errors ++ outs.filterMap raisedMsg } := by
    intro outs
    induction outs with
    | nil => intro acc; simp
    | cons o t ih =>
      intro acc
      cases o with
      | ok c =>
        rw [List.foldl_cons, ih]
        simp only [List.filterMap_cons, okChunks, raisedMsg, IngestResult.mk.injEq]
        refine ⟨by simp; omega, by simp; omega, by simp⟩
      | noResult =>
        rw [List.foldl_cons, ih]
        simp only [List.filterMap_cons, okChunks, raisedMsg]
      | raised m =>
        rw [List.foldl_cons, ih]
        simp only [List.filterMap_cons, okChunks, raisedMsg, IngestResult.mk.injEq]
        refine ⟨by simp, by simp, by simp⟩
  rw [collect_results, main]
  simp

/-- C8: the parallel path (aggregating per-file outcomes in completion order,
any permutation of the batch) and the sequential fallback (aggregating in list
order) agree on every observable: same `files_processed`, same `chunks_created`,
and the same per-file error entries (equal as multisets; completion order may
reorder them). -/
theorem parallel_equals_sequential {α : Type} (files order : List α)
    (run : α → ProcOutcome) (h : order.Perm files) :
    (process_files_parallel files order run).files_processed =
        (process_files_sequential files run).files_processed ∧
    (process_files_parallel files order run).chunks_created =
        (process_files_sequential files run).chunks_created ∧
    ((process_files_parallel files order run).errors).Perm
        ((process_files_sequential files run).errors) := by
  unfold process_files_parallel process_files_sequential
  by_cases hf : files.isEmpty
  · have hfn : files = [] := List.isEmpty_iff.mp hf
    subst hfn
    have hon : order = [] := h.eq_nil
    subst hon
    simp [collect_results]
  · rw [if_neg hf, collect_results_closed, collect_results_closed]
    have hperm : (order.map run).Perm (files.map run) := h.map run
    exact ⟨(hperm.filterMap okChunks).length_eq, (hperm.filterMap okChunks).sum_eq,
      hperm.filterMap raisedMsg⟩

/-- Witness for C8 at a concrete two-file batch with a reversed completion order. -/
theorem parallel_equals_sequential_witness :
    (process_files_parallel [1, 2] [2, 1] runMixed).files_processed =
        (process_files_sequential [1, 2] runMixed).files_processed ∧
    (process_files_parallel [1, 2] [2, 1] runMixed).chunks_created =
        (process_files_sequential [1, 2] runMixed).chunks_created ∧
    ((process_files_parallel [1, 2] [2, 1] runMixed).errors).Perm
        ((process_files_sequential [1, 2] runMixed).errors) :=
  parallel_equals_sequential [1, 2] [2, 1] runMixed (by decide)

/-- C1 (counterexample): a batch of N = 2 files of which M = 1 fails to parse.
The claim requires `files_processed = 1` and one error entry; the code counts
the parse-failed file as processed (its `parse_file` call swallowed the
exception and returned no chunks, so `_process_single_file` returns the truthy
dict `{"chunks_created": 0}`) and records no error. -/
theorem partial_failure_claim_cx :
    process_files_parallel [fileOk, fileParseFail] [fileOk, fileParseFail]
        single_file_outcome =
      { files_processed := 2, chunks_created := 2, errors := [] } ∧
    ¬ ((process_files_parallel [fileOk, fileParseFail] [fileOk, fileParseFail]
          single_file_outcome).files_processed = 1 ∧
        (process_files_parallel [fileOk, fileParseFail] [fileOk, fileParseFail]
          single_file_outcome).errors.length = 1) := by
  refine ⟨by decide, by decide⟩

/-- The coordinator observes `_process_single_file` as a truthy result whose
`chunks_created` is the parsed chunk count (0 for a file that failed to parse):
no exception ever escapes it and it never returns `None` here, because
`parse_file`, `store_chunks` and `update_file_tracker` each catch their own
exceptions. -/
theorem single_file_outcome_eq (f : FileModel) :
    single_file_outcome f = ProcOutcome.ok f.chunks.length := by
  unfold single_file_outcome process_single_file
  by_cases h : f.chunks.isEmpty
  · simp [h, List.isEmpty_iff.mp h]
  · simp [h]

/-- C1 (amended): in a batch of N files of which M fail to parse, no file stops
any other, `chunks_created` is the chunk total of the N - M successfully parsed
files (failed files contribute 0), but `files_processed = N` — parse-failed
files still count as processed — and the error list is empty, because each
file's failure is swallowed inside its own processing call. -/
theorem ingest_partial_failure_result (files order : List FileModel)
    (h : order.Perm files) :
    process_files_parallel files order single_file_outcome =
      { files_processed := files.length
        chunks_created := (files.map (fun f => f.chunks.length)).sum
        errors := [] } := by
  unfold process_files_parallel
  by_cases hf : files.isEmpty
  · have hfn : files = [] := List.isEmpty_iff.mp hf
    subst hfn
    have hon : order = [] := h.eq_nil
    subst hon
    simp
  · rw [if_neg hf, collect_results_closed]
    have hmap : order.map single_file_outcome =
        order.map (fun f => ProcOutcome.ok f.chunks.length) :=
      List.map_congr_left (fun f _ => single_file_outcome_eq f)
    rw [hmap]
    have hok : (order.map (fun f => ProcOutcome.ok f.chunks.length)).filterMap okChunks =
        order.map (fun f => f.chunks.length) := by
      have hcomp : (okChunks ∘ fun f : FileModel => ProcOutcome.ok f.chunks.length) =
          (some ∘ fun f : FileModel => f.chunks.length) := rfl
      rw [List.filterMap_map, hcomp, List.filterMap_eq_map]
    have herr : (order.map (fun f => ProcOutcome.ok f.chunks.length)).filterMap raisedMsg = [] := by
      have hcomp : (raisedMsg ∘ fun f : FileModel => ProcOutcome.ok f.chunks.length) =
          (fun _ : FileModel => (none : Option String)) := rfl
      rw [List.filterMap_map, hcomp]
      simp
    rw [hok, herr]
    have hperm : (order.map (fun f => f.chunks.length)).Perm
        (files.map (fun f => f.chunks.length)) := h.map _
    simp only [IngestResult.mk.injEq]
    exact ⟨by rw [hperm.length_eq, List.length_map], hperm.sum_eq, trivial⟩

/-- Witness for the amended C1 at a concrete two-file batch (one parse failure)
with a reversed completion order. -/
theorem ingest_partial_failure_result_witness :
    process_files_parallel [fileOk, fileParseFail] [fileParseFail, fileOk]
        single_file_outcome =
      { files_processed := 2, chunks_created := 2, errors := [] } :=
  (ingest_partial_failure_result [fileOk, fileParseFail] [fileParseFail, fileOk]
    (by decide)).trans (by decide)


/-- Membership in `enumFrom` projects to membership in the underlying list. -/
theorem mem_of_mem_enumFrom {α : Type} {l : List α} :
    ∀ {n : Nat} {p : Nat × α}, p ∈ List.enumFrom n l → p.2 ∈ l := by
  induction l with
  | nil => intro n p h; simp [List.enumFrom] at h
  | cons a t ih =>
    intro n p h
    rcases List.mem_cons.mp h with h1 | h1
    · rw [h1]; exact List.mem_cons_self a t
    · exact List.mem_cons_of_mem a (ih h1)

/-- Membership in `enum` projects to membership in the underlying list. -/
theorem mem_of_mem_enum {α : Type} {l : List α} {p : Nat × α} (h : p ∈ l.enum) :
    p.2 ∈ l :=
  mem_of_mem_enumFrom h

/-- Every element of a list is bounded by `listMax`. -/
theorem le_listMax {xs : List ℚ} {d : ℚ} (h : d ∈ xs) : d ≤ listMax xs := by
  have key : ∀ (t : List ℚ) (acc : ℚ),
      acc ≤ List.foldl max acc t ∧ ∀ x ∈ t, x ≤ List.foldl max acc t := by
    intro t
    induction t with
    | nil => intro acc; exact ⟨le_refl _, by simp⟩
    | cons b u ih =>
      intro acc
      have h1 := ih (max acc b)
      refine ⟨le_trans (le_max_left acc b) h1.1, ?_⟩
      intro x hx
      rcases List.mem_cons.mp hx with h2 | h2
      · rw [h2]; exact le_trans (le_max_right acc b) h1.1
      · exact h1.2 x h2
  cases xs with
  | nil => simp at h
  | cons a t =>
    show d ≤ List.foldl max a t
    rcases List.mem_cons.mp h with h2 | h2
    · rw [h2]; exact (key t a).1
    · exact (key t a).2 d h2

/-- C7 (counterexample): a store response may carry a negative distance next to
a positive one (as an inner-product collection can return); the conversion
`1 - distance / max(distances)` then yields a similarity score of 2, outside
the unit interval — retrieval applies no clamp. -/
theorem similarity_unclamped_cx :
    (retrieve_documents (some respNegDist) queryQ).map (fun r => r.score) = [2, 0] ∧
    ¬ ((2 : ℚ) ≤ 1) := by
  constructor
  · simp [retrieve_documents, respNegDist, queryQ, listMax, Metadata.empty]
    norm_num [List.enum, List.enumFrom, List.filterMap_cons]
  · norm_num

/-- C7 (amended): every similarity score produced by retrieval lies in `[0,1]`
provided the store's distances are all nonnegative (as the default L2
collection guarantees; a negative distance breaks the bound — see the
counterexample), and every confidence value produced by the scorer lies in
`[0,1]` unconditionally. -/
theorem similarity_and_confidence_bounds :
    (∀ (r : StoreQueryResp) (q : SearchQuery) (c : SearchResult),
        (∀ d ∈ r.distances, (0 : ℚ) ≤ d) → c ∈ retrieve_documents (some r) q →
        0 ≤ c.score ∧ c.score ≤ 1) ∧
    (∀ (rs : List SearchResult) (q : String),
        0 ≤ calculate_confidence rs q ∧ calculate_confidence rs q ≤ 1) := by
  constructor
  · intro r q c hd hc
    simp only [retrieve_documents] at hc
    split at hc
    · exact absurd hc (List.not_mem_nil c)
    split at hc
    · exact absurd hc (List.not_mem_nil c)
    · rename_i hdocs hguard
      obtain ⟨p, hp, hsome⟩ := List.mem_filterMap.mp hc
      have hmem : p.2 ∈ r.documents.zip (r.metadatas.zip r.distances) := mem_of_mem_enum hp
      have hdist : p.2.2.2 ∈ r.distances := (List.of_mem_zip (List.of_mem_zip hmem).2).2
      have hle : p.2.2.2 ≤ listMax r.distances := le_listMax hdist
      have hd0 : (0 : ℚ) ≤ p.2.2.2 := hd _ hdist
      have htne : ¬(r.documents.zip (r.metadatas.zip r.distances)).isEmpty = true := by
        intro habs
        rw [List.isEmpty_iff.mp habs] at hmem
        exact absurd hmem (List.not_mem_nil _)
      have hMne : listMax r.distances ≠ 0 := by
        intro habs
        exact hguard (by simp [htne, habs])
      have hMpos : 0 < listMax r.distances :=
        lt_of_le_of_ne (le_trans hd0 hle) (Ne.symm hMne)
      split at hsome
      · exact absurd hsome (by simp)
      · have hcc := Option.some.inj hsome
        rw [← hcc]
        constructor
        · have h1 : p.2.2.2 / listMax r.distances ≤ 1 := (div_le_one hMpos).mpr hle
          simp only []
          linarith
        · have h1 : 0 ≤ p.2.2.2 / listMax r.distances := div_nonneg hd0 (le_of_lt hMpos)
          simp only []
          linarith
  · intro rs q
    cases rs with
    | nil =>
      have h0 : calculate_confidence [] q = 0 := rfl
      rw [h0]
      exact ⟨le_refl 0, by norm_num⟩
    | cons a l =>
      show 0 ≤ calculate_weighted_confidence (extract_confidence_metrics (a :: l)) ∧
        calculate_weighted_confidence (extract_confidence_metrics (a :: l)) ≤ 1
      unfold calculate_weighted_confidence
      exact ⟨le_max_left 0 _, max_le (by norm_num) (min_le_left 1 _)⟩

/-- Witness for the amended C7: a one-document response with distance 1/2 and a
one-result confidence computation. -/
theorem similarity_and_confidence_bounds_witness :
    ((0 : ℚ) ≤ resultHalf.score ∧ resultHalf.score ≤ 1) ∧
    (0 ≤ calculate_confidence [resultSample] "q" ∧
      calculate_confidence [resultSample] "q" ≤ 1) := by
  refine ⟨similarity_and_confidence_bounds.1 respHalf queryQ resultHalf ?_ ?_,
    similarity_and_confidence_bounds.2 [resultSample] "q"⟩
  · intro d hd
    simp [respHalf] at hd
    rw [hd]
    norm_num
  · have h : retrieve_documents (some respHalf) queryQ = [resultHalf] := by
      simp [retrieve_documents, respHalf, queryQ, listMax, resultHalf, Metadata.empty]
      decide
    rw [h]
    exact List.mem_singleton_self resultHalf

/-- For a non-empty result list the source computation agrees with the spec's
weighted formula, term by term. -/
theorem calculate_confidence_cons (a : SearchResult) (l : List SearchResult) (q : String) :
    calculate_confidence (a :: l) q =
      clamp01 (0.4 * specMean (topScores (a :: l)) +
        0.2 * max 0 (1 - specVariance (topScores (a :: l))) +
        0.2 * min 1 (((a :: l).length : ℚ) / 5) +
        0.15 * assess_content_quality (a :: l) +
        0.05 * assess_metadata_completeness (a :: l)) := by
  have base : calculate_confidence (a :: l) q = clamp01 (
      0.4 * (if (topScores (a :: l)).isEmpty then (0:ℚ)
             else (topScores (a :: l)).sum / (topScores (a :: l)).length) +
      0.2 * max 0 (1 - (if (topScores (a :: l)).length > 1
                        then sample_variance (topScores (a :: l)) else 0)) +
      0.2 * min 1 (((a :: l).length : ℚ) / 5) +
      0.15 * assess_content_quality (a :: l) +
      0.05 * assess_metadata_completeness (a :: l)) := rfl
  rw [base]
  have e1 : (if (topScores (a :: l)).isEmpty then (0:ℚ)
             else (topScores (a :: l)).sum / (topScores (a :: l)).length)
      = specMean (topScores (a :: l)) := by
    have hne : (topScores (a :: l)).isEmpty = false := by simp [topScores]
    rw [hne]
    simp [specMean]
  have e2 : (if (topScores (a :: l)).length > 1
             then sample_variance (topScores (a :: l)) else (0:ℚ))
      = specVariance (topScores (a :: l)) := by
    unfold specVariance
    by_cases hl : (topScores (a :: l)).length ≤ 1
    · rw [if_neg (by omega), if_pos hl]
    · rw [if_pos (by omega), if_neg hl]
  rw [e1, e2]

/-- C4: for every non-empty candidate list, `calculate_confidence` equals the
clamp to `[0,1]` of `0.40 * mean(top-3 scores) + 0.20 * max(0, 1 -
variance(top-3 scores)) + 0.20 * min(1, count/5) + 0.15 * contentQualityScore +
0.05 * metadataCompletenessScore` (variance being the sample variance the code
computes, 0 for fewer than two scores); it is a pure deterministic function of
its inputs (a Lean function of the candidate list alone), and on the empty
candidate list it returns exactly 0. -/
theorem confidence_matches_spec_formula (rs : List SearchResult) (q : String) :
    (rs ≠ [] → calculate_confidence rs q =
      clamp01 (0.4 * specMean (topScores rs) +
        0.2 * max 0 (1 - specVariance (topScores rs)) +
        0.2 * min 1 ((rs.length : ℚ) / 5) +
        0.15 * assess_content_quality rs +
        0.05 * assess_metadata_completeness rs)) ∧
    calculate_confidence [] q = 0 := by
  refine ⟨?_, rfl⟩
  intro h
  match rs, h with
  | a :: l, _ => exact calculate_confidence_cons a l q

/-- Witness for C4 at a concrete one-candidate list. -/
theorem confidence_matches_spec_formula_witness :
    calculate_confidence [resultSample] "q" =
      clamp01 (0.4 * specMean (topScores [resultSample]) +
        0.2 * max 0 (1 - specVariance (topScores [resultSample])) +
        0.2 * min 1 ((([resultSample] : List SearchResult).length : ℚ) / 5) +
        0.15 * assess_content_quality [resultSample] +
        0.05 * assess_metadata_completeness [resultSample]) :=
  (confidence_matches_spec_formula [resultSample] "q").1 (List.cons_ne_nil _ _)
theorem searchBack_bounds (pred : Nat → Bool) :
    ∀ (k i j : Nat), searchBack pred i k = some j → i - k ≤ j ∧ j ≤ i := by
  intro k
  induction k with
  | zero =>
    intro i j h
    unfold searchBack at h
    split at h
    · cases h; omega
    · cases h
  | succ k ih =>
    intro i j h
    unfold searchBack at h
    split at h
    · cases h; omega
    · have := ih (i - 1) j h
      omega

theorem findBreak_bounds (pred : Nat → Bool) (hi stop j : Nat)
    (h : findBreak pred hi stop = some j) : stop < j ∧ j ≤ hi := by
  unfold findBreak at h
  split at h
  · have := searchBack_bounds pred (hi - stop - 1) hi j h
    omega
  · cases h

theorem compute_chunk_end_lb (text : List Char) (start : Nat) :
    start + 902 ≤ compute_chunk_end 1000 text start := by
  have hmax1 : start + 900 ≤ max (start + 1000 - 100) start := by
    have he : start + 900 = start + 1000 - 100 := by omega
    rw [he]
    exact le_max_left _ _
  have hmax2 : start + 950 ≤ max (start + 1000 - 50) start := by
    have he : start + 950 = start + 1000 - 50 := by omega
    rw [he]
    exact le_max_left _ _
  simp only [compute_chunk_end]
  split
  · cases hs : findBreak (isSentenceEnd text) (start + 1000) (max (start + 1000 - 100) start) with
    | none =>
      simp only [hs]
      split
      · cases hp : findBreak (isParaBreak text) (start + 1000) (max (start + 1000 - 50) start) with
        | none =>
          simp only [hp]
          show start + 902 ≤ start + 1000
          omega
        | some i2 =>
          simp only [hp]
          have hb := findBreak_bounds _ _ _ _ hp
          have h1 : start + 950 < i2 := lt_of_le_of_lt hmax2 hb.1
          show start + 902 ≤ i2 + 1
          omega
      · show start + 902 ≤ start + 1000
        omega
    | some i =>
      simp only [hs]
      have hb := findBreak_bounds _ _ _ _ hs
      have h1 : start + 900 < i := lt_of_le_of_lt hmax1 hb.1
      split
      · cases hp : findBreak (isParaBreak text) (i + 1) (max (start + 1000 - 50) start) with
        | none =>
          simp only [hp]
          show start + 902 ≤ i + 1
          omega
        | some i2 =>
          simp only [hp]
          have hb2 := findBreak_bounds _ _ _ _ hp
          have h2 : start + 950 < i2 := lt_of_le_of_lt hmax2 hb2.1
          show start + 902 ≤ i2 + 1
          omega
      · show start + 902 ≤ i + 1
        omega
  · show start + 902 ≤ start + 1000
    omega

theorem createChunksAux_isSome (text : List Char) (fi : FileInfo) (dt : List Char) :
    ∀ (fuel start : Nat), text.length - start < fuel →
      (createChunksAux 1000 200 text fi dt fuel start).isSome = true := by
  intro fuel
  induction fuel with
  | zero => intro start h; omega
  | succ fuel ih =>
    intro start h
    simp only [createChunksAux]
    by_cases hs : start < text.length
    · rw [if_pos hs]
      have he := compute_chunk_end_lb text start
      have hrec := ih (compute_chunk_end 1000 text start - 200) (by omega)
      obtain ⟨rest, hr⟩ := Option.isSome_iff_exists.mp hrec
      rw [hr]
      rfl
    · rw [if_neg hs]
      rfl

/-- C10: with the default construction parameters `chunk_size = 1000` and
`chunk_overlap = 200`, the sliding-window chunker terminates on every input
(the fuelled loop with fuel `len(text) + 1` never runs out, so `_create_chunks`
is total and returns a finite chunk list), because every iteration advances the
window start by at least `chunk_size - chunk_overlap - 100 = 700 > 0`
characters (the computed chunk end never retreats past
`start + chunk_size - 98`). -/
theorem create_chunks_terminates (text : List Char) (fi : FileInfo) (dt : List Char) :
    (create_chunks 1000 200 text fi dt).isSome = true ∧
    (∀ start, start < text.length →
      start + 700 ≤ compute_chunk_end 1000 text start - 200) := by
  constructor
  · unfold create_chunks
    split
    · rfl
    · exact createChunksAux_isSome text fi dt (text.length + 1) 0 (by omega)
  · intro start _
    have := compute_chunk_end_lb text start
    omega

/-- Witness for C10 on the Scenario A content (length 67, one window). -/
theorem create_chunks_terminates_witness :
    (create_chunks 1000 200 contentTwoHeaders fiSample "Document".data).isSome = true ∧
    0 + 700 ≤ compute_chunk_end 1000 contentTwoHeaders 0 - 200 :=
  ⟨(create_chunks_terminates contentTwoHeaders fiSample "Document".data).1,
    (create_chunks_terminates contentTwoHeaders fiSample "Document".data).2 0 (by decide)⟩
theorem pyStrip_cons_nl (xs : List Char) : pyStrip ('\n' :: xs) = pyStrip xs := by
  simp [pyStrip, List.dropWhile_cons, pyIsSpace]

theorem pyStrip_append_nl (xs : List Char) : pyStrip (xs ++ ['\n']) = pyStrip xs := by
  unfold pyStrip
  rw [List.dropWhile_append]
  by_cases h : (List.dropWhile pyIsSpace xs).isEmpty
  · rw [if_pos h]
    have h2 : List.dropWhile pyIsSpace ['\n'] = [] := by decide
    rw [h2, List.isEmpty_iff.mp h]
  · rw [if_neg h]
    rw [List.reverse_append]
    simp [List.dropWhile_cons, pyIsSpace]

theorem splitLines_no_nl (xs : List Char) (h : ¬ '\n' ∈ xs) : splitLines xs = [xs] := by
  induction xs with
  | nil => rfl
  | cons c t ih =>
    have hc : ¬(c = '\n') := fun e => h (e ▸ List.mem_cons_self c t)
    have ht : ¬ '\n' ∈ t := fun m => h (List.mem_cons_of_mem c m)
    unfold splitLines
    rw [if_neg hc, ih ht]

theorem splitLines_append (xs ys : List Char) (h : ¬ '\n' ∈ xs) :
    splitLines (xs ++ '\n' :: ys) = xs :: splitLines ys := by
  induction xs with
  | nil => simp [splitLines]
  | cons c t ih =>
    have hc : ¬(c = '\n') := fun e => h (e ▸ List.mem_cons_self c t)
    have ht : ¬ '\n' ∈ t := fun m => h (List.mem_cons_of_mem c m)
    show splitLines (c :: (t ++ '\n' :: ys)) = (c :: t) :: splitLines ys
    conv_lhs => unfold splitLines
    rw [if_neg hc, ih ht]
theorem mdPieces_schema (a b : List Char) (ha : isHeaderLine a = false)
    (hb : isHeaderLine b = false) :
    mdPieces ["# Setup".data, a, "# Usage".data, b] =
      [[], "# Setup".data, '\n' :: (a ++ ['\n']), "# Usage".data, '\n' :: b] := by
  have h1 : isHeaderLine ("# Setup".data) = true := by decide
  have h2 : isHeaderLine ("# Usage".data) = true := by decide
  simp [mdPieces, h1, h2, ha, hb]

theorem createChunksAux_done (chunk_size chunk_overlap : Nat) (text : List Char)
    (fi : FileInfo) (dt : List Char) (fuel start : Nat)
    (h : ¬ start < text.length) (hf : fuel ≠ 0) :
    createChunksAux chunk_size chunk_overlap text fi dt fuel start = some [] := by
  cases fuel with
  | zero => exact absurd rfl hf
  | succ f =>
    simp only [createChunksAux]
    rw [if_neg h]

theorem create_chunks_short (text : List Char) (fi : FileInfo) (dt : List Char)
    (h1 : pyStrip text = text) (h2 : text ≠ []) (h3 : text.length ≤ 800) :
    create_chunks 1000 200 text fi dt =
      some [{ content := text
              metadata := { file_path := fi.file_path, file_name := fi.file_name
                            file_type := fi.file_type, chunk_type := dt
                            chunk_start := 0, chunk_end := 1000
                            total_length := text.length } }] := by
  have hlp : 0 < text.length := List.length_pos.mpr h2
  have hne : (pyStrip text).isEmpty = false := by
    rw [h1]
    cases text with
    | nil => exact absurd rfl h2
    | cons c t => rfl
  have hce : compute_chunk_end 1000 text 0 = 1000 := by
    simp only [compute_chunk_end]
    rw [if_neg (by omega : ¬ 0 + 1000 < text.length)]
  unfold create_chunks
  rw [if_neg (by simp [hne])]
  simp only [createChunksAux]
  rw [if_pos hlp, hce]
  rw [createChunksAux_done 1000 200 text fi dt text.length (1000 - 200)
    (by omega) (by omega)]
  have hcontent : pyStrip (List.take (1000 - 0) (List.drop 0 text)) = text := by
    rw [List.drop_zero, List.take_of_length_le (by omega)]
    exact h1
  rw [hcontent]
  have htne : text.isEmpty = false := by
    cases text with
    | nil => exact absurd rfl h2
    | cons c t => rfl
  rw [htne]
  rfl
theorem pml_skip (cs co : Nat) (fi : FileInfo) (hdr s : List Char)
    (rest : List (List Char)) (h : (pyStrip s).isEmpty = true) :
    parse_markdown_loop cs co fi hdr (s :: rest) =
      parse_markdown_loop cs co fi hdr rest := by
  simp only [parse_markdown_loop]
  rw [if_pos h]

theorem pml_header (cs co : Nat) (fi : FileInfo) (hdr s : List Char)
    (rest : List (List Char)) (h1 : (pyStrip s).isEmpty = false)
    (h2 : s.head? = some '#') :
    parse_markdown_loop cs co fi hdr (s :: rest) =
      parse_markdown_loop cs co fi (pyStrip s) rest := by
  simp only [parse_markdown_loop]
  rw [if_neg (by simp [h1]), if_pos (by simp [h2])]

theorem pml_content (cs co : Nat) (fi : FileInfo) (hdr s : List Char)
    (rest : List (List Char)) (cs' more : List PChunk)
    (h1 : (pyStrip s).isEmpty = false) (h2 : ¬ s.head? = some '#')
    (hcc : create_chunks cs co (pyStrip s) fi hdr = some cs')
    (hrest : parse_markdown_loop cs co fi hdr rest = some more) :
    parse_markdown_loop cs co fi hdr (s :: rest) = some (cs' ++ more) := by
  simp only [parse_markdown_loop]
  rw [if_neg (by simp [h1]), if_neg (by simp [h2]), hcc, hrest]

/-- C9 (amended): a markdown file with exactly two hash headers "Setup" and
"Usage", each followed by one plain content line, parses to exactly 2 chunks,
whose section labels are the full header lines `"# Setup"` and `"# Usage"` —
the code labels a section with the stripped header line including its hash
marks, not the bare header text; and content appearing before the first header
is labeled `"Document"`.  The content lines are assumed newline-free,
non-header, pre-stripped, non-empty and at most 800 characters (so each section
is a single window of the default chunker). -/
theorem markdown_section_labels (fi : FileInfo) (a b c : List Char)
    (ha1 : pyStrip a = a) (ha2 : a ≠ []) (ha3 : a.length ≤ 800)
    (ha4 : ¬ '\n' ∈ a) (ha5 : isHeaderLine a = false)
    (hb1 : pyStrip b = b) (hb2 : b ≠ []) (hb3 : b.length ≤ 800)
    (hb4 : ¬ '\n' ∈ b) (hb5 : isHeaderLine b = false)
    (hc1 : pyStrip c = c) (hc2 : c ≠ []) (hc3 : c.length ≤ 800)
    (hc4 : ¬ '\n' ∈ c) (hc5 : isHeaderLine c = false) (hc6 : ¬ c.head? = some '#') :
    parse_markdown 1000 200 fi
        ("# Setup".data ++ '\n' :: (a ++ '\n' :: ("# Usage".data ++ '\n' :: b))) =
      some [ { content := a
               metadata := { file_path := fi.file_path, file_name := fi.file_name
                             file_type := fi.file_type, chunk_type := "# Setup".data
                             chunk_start := 0, chunk_end := 1000
                             total_length := a.length } },
             { content := b
               metadata := { file_path := fi.file_path, file_name := fi.file_name
                             file_type := fi.file_type, chunk_type := "# Usage".data
                             chunk_start := 0, chunk_end := 1000
                             total_length := b.length } } ] ∧
    parse_markdown 1000 200 fi (c ++ '\n' :: ("# Setup".data ++ '\n' :: a)) =
      some [ { content := c
               metadata := { file_path := fi.file_path, file_name := fi.file_name
                             file_type := fi.file_type, chunk_type := "Document".data
                             chunk_start := 0, chunk_end := 1000
                             total_length := c.length } },
             { content := a
               metadata := { file_path := fi.file_path, file_name := fi.file_name
                             file_type := fi.file_type, chunk_type := "# Setup".data
                             chunk_start := 0, chunk_end := 1000
                             total_length := a.length } } ] := by
  have hSnl : ¬ '\n' ∈ "# Setup".data := by decide
  have hUnl : ¬ '\n' ∈ "# Usage".data := by decide
  have hSstrip : pyStrip ("# Setup".data) = "# Setup".data := by decide
  have hUstrip : pyStrip ("# Usage".data) = "# Usage".data := by decide
  have hSne : (pyStrip ("# Setup".data)).isEmpty = false := by decide
  have hUne : (pyStrip ("# Usage".data)).isEmpty = false := by decide
  have hSh : ("# Setup".data).head? = some '#' := by decide
  have hUh : ("# Usage".data).head? = some '#' := by decide
  have hane : a.isEmpty = false := by
    cases a with
    | nil => exact absurd rfl ha2
    | cons x t => rfl
  have hbne : b.isEmpty = false := by
    cases b with
    | nil => exact absurd rfl hb2
    | cons x t => rfl
  have hcne : c.isEmpty = false := by
    cases c with
    | nil => exact absurd rfl hc2
    | cons x t => rfl
  have hstrip2 : pyStrip ('\n' :: (a ++ ['\n'])) = a := by
    rw [pyStrip_cons_nl, pyStrip_append_nl, ha1]
  have hstrip3 : pyStrip ('\n' :: b) = b := by rw [pyStrip_cons_nl, hb1]
  have hstrip3a : pyStrip ('\n' :: a) = a := by rw [pyStrip_cons_nl, ha1]
  have hstripc : pyStrip (c ++ ['\n']) = c := by rw [pyStrip_append_nl, hc1]
  constructor
  · unfold parse_markdown
    rw [splitLines_append _ _ hSnl, splitLines_append _ _ ha4,
      splitLines_append _ _ hUnl, splitLines_no_nl _ hb4]
    rw [mdPieces_schema a b ha5 hb5]
    rw [pml_skip 1000 200 fi ("Document".data) [] _ rfl]
    rw [pml_header _ _ _ _ _ _ hSne hSh, hSstrip]
    rw [pml_content _ _ _ _ _ _ _ _ (by rw [hstrip2, hane]) (by simp)
      (by rw [hstrip2]; exact create_chunks_short a fi ("# Setup".data) ha1 ha2 ha3)
      (by
        rw [pml_header _ _ _ _ _ _ hUne hUh, hUstrip]
        exact pml_content _ _ _ _ _ _ _ _ (by rw [hstrip3, hbne]) (by simp)
          (by rw [hstrip3]; exact create_chunks_short b fi ("# Usage".data) hb1 hb2 hb3)
          rfl)]
    rfl
  · unfold parse_markdown
    rw [splitLines_append _ _ hc4, splitLines_append _ _ hSnl, splitLines_no_nl _ ha4]
    have hmp : mdPieces [c, "# Setup".data, a] =
        [c ++ ['\n'], "# Setup".data, '\n' :: a] := by
      have h1 : isHeaderLine ("# Setup".data) = true := by decide
      simp [mdPieces, h1, hc5, ha5]
    rw [hmp]
    have hheadc : (c ++ ['\n']).head? = c.head? := by
      cases c with
      | nil => exact absurd rfl hc2
      | cons d t => rfl
    rw [pml_content _ _ _ _ _ _ _ _ (by rw [hstripc, hcne])
      (by rw [hheadc]; exact hc6)
      (by rw [hstripc]; exact create_chunks_short c fi ("Document".data) hc1 hc2 hc3)
      (by
        rw [pml_header _ _ _ _ _ _ hSne hSh, hSstrip]
        exact pml_content _ _ _ _ _ _ _ _ (by rw [hstrip3a, hane]) (by simp)
          (by rw [hstrip3a]; exact create_chunks_short a fi ("# Setup".data) ha1 ha2 ha3)
          rfl)]
    rfl

/-- C9 (counterexample): on the Scenario A content the two chunks' section
labels are `"# Setup"` and `"# Usage"`, not `"Setup"` and `"Usage"` as the
claim states — the hash marker stays in the label. -/
theorem markdown_section_labels_cx :
    (parse_markdown 1000 200 fiSample contentTwoHeaders).map
        (List.map (fun ch => ch.metadata.chunk_type)) =
      some ["# Setup".data, "# Usage".data] ∧
    ¬ ((parse_markdown 1000 200 fiSample contentTwoHeaders).map
        (List.map (fun ch => ch.metadata.chunk_type)) =
      some ["Setup".data, "Usage".data]) := by
  refine ⟨by decide, by decide⟩

/-- Witness for the amended C9 at the Scenario A bodies and a concrete
pre-header line. -/
theorem markdown_section_labels_witness :
    parse_markdown 1000 200 fiSample
        ("# Setup".data ++ '\n' ::
          (sectionBodyA ++ '\n' :: ("# Usage".data ++ '\n' :: sectionBodyB))) =
      some [ { content := sectionBodyA
               metadata := { file_path := fiSample.file_path
                             file_name := fiSample.file_name
                             file_type := fiSample.file_type
                             chunk_type := "# Setup".data
                             chunk_start := 0, chunk_end := 1000
                             total_length := sectionBodyA.length } },
             { content := sectionBodyB
               metadata := { file_path := fiSample.file_path
                             file_name := fiSample.file_name
                             file_type := fiSample.file_type
                             chunk_type := "# Usage".data
                             chunk_start := 0, chunk_end := 1000
                             total_length := sectionBodyB.length } } ] ∧
    parse_markdown 1000 200 fiSample
        (introBody ++ '\n' :: ("# Setup".data ++ '\n' :: sectionBodyA)) =
      some [ { content := introBody
               metadata := { file_path := fiSample.file_path
                             file_name := fiSample.file_name
                             file_type := fiSample.file_type
                             chunk_type := "Document".data
                             chunk_start := 0, chunk_end := 1000
                             total_length := introBody.length } },
             { content := sectionBodyA
               metadata := { file_path := fiSample.file_path
                             file_name := fiSample.file_name
                             file_type := fiSample.file_type
                             chunk_type := "# Setup".data
                             chunk_start := 0, chunk_end := 1000
                             total_length := sectionBodyA.length } } ] :=
  markdown_section_labels fiSample sectionBodyA sectionBodyB introBody
    (by decide) (by decide) (by decide) (by decide) (by decide)
    (by decide) (by decide) (by decide) (by decide) (by decide)
    (by decide) (by decide) (by decide) (by decide) (by decide) (by decide)
